import Mathlib

/-!
# Verification of the ai_game backend core simulation

Shallow embedding of the tick-based world-simulation engine
(backend/app/services/game_loop.py and the models it drives) and proofs
about its state-mutating operations.

Python floats are modelled as rationals (ℚ); a Python float comparison
of sqrt(dx*dx+dy*dy) against a nonnegative bound r is modelled by the
equivalent squared comparison dx^2+dy^2 vs r^2, which keeps every range
check decidable.  Python dictionaries read with .get(k, default) are
modelled as total functions.  Fallible code paths are modelled with
Option/Except.
-/

namespace AiGame

/-- Planar position (models app.models.base.Position2D); coordinates as ℚ. -/
structure Position2D where
  x : ℚ
  y : ℚ
deriving DecidableEq

/-- Squared euclidean distance.  PhysicsEngine.calculate_distance returns
sqrt(dx²+dy²); every use in the verified code compares it against a
nonnegative constant r, which is equivalent to comparing distSq with r². -/
def distSq (p1 p2 : Position2D) : ℚ :=
  (p2.x - p1.x) ^ 2 + (p2.y - p1.y) ^ 2

/-! ## C1: attribute range invariant -/

/-- NPC attributes (models app.models.npc.NPCAttributes); the pydantic
fields carry constraints ge=0, le=100. -/
structure NPCAttributes where
  health : ℚ
  hunger : ℚ
  stamina : ℚ
deriving DecidableEq

/-- The attribute triple lies in the pydantic-declared range [0,100]. -/
def AttrsInRange (a : NPCAttributes) : Prop :=
  0 ≤ a.health ∧ a.health ≤ 100 ∧
  0 ≤ a.hunger ∧ a.hunger ≤ 100 ∧
  0 ≤ a.stamina ∧ a.stamina ≤ 100

instance (a : NPCAttributes) : Decidable (AttrsInRange a) :=
  inferInstanceAs (Decidable (0 ≤ a.health ∧ a.health ≤ 100 ∧
    0 ≤ a.hunger ∧ a.hunger ≤ 100 ∧ 0 ≤ a.stamina ∧ a.stamina ≤ 100))

/-- Weather effect table from MainGameLoop.update_npc_attributes
(weather_effects dict, default {1.0, 1.0}); first component is
stamina_mult, second health_mult. -/
def weatherEffect (weather : String) : ℚ × ℚ :=
  if weather = "clear" then (1, 1)
  else if weather = "rain" then (7/10, 9/10)
  else if weather = "storm" then (1/2, 4/5)
  else (1, 1)

/-- game_loop.py 351: npc.attributes.hunger = min(100, hunger + 0.05). -/
def stepHunger (a : NPCAttributes) : NPCAttributes :=
  { a with hunger := min 100 (a.hunger + 5/100) }

/-- game_loop.py 354-355: starvation damage when hunger > 90. -/
def stepStarvation (a : NPCAttributes) : NPCAttributes :=
  if a.hunger > 90 then { a with health := max 0 (a.health - 5/100) } else a

/-- game_loop.py 366-396: the rest / working / idle branch updating
stamina and health.  In the rest branch the shelter regeneration bonuses
are added and the weather multipliers apply only outside a shelter. -/
def stepStaminaHealth (weather : String) (currentAction : Option String)
    (inShelter : Bool) (healthRegenBonus staminaRegenBonus : ℚ)
    (a : NPCAttributes) : NPCAttributes :=
  let isRest := currentAction == some "rest"
  let isWorking := match currentAction with
    | some s => !(s == "") && !(s == "idle")
    | none => false
  if isRest then
    let staminaRegen := 3/2 + (if inShelter then staminaRegenBonus else 0)
    let healthRegen := 4/5 + (if inShelter then healthRegenBonus else 0)
    let staminaRegen :=
      if inShelter then staminaRegen else staminaRegen * (weatherEffect weather).1
    let healthRegen :=
      if inShelter then healthRegen else healthRegen * (weatherEffect weather).2
    { a with stamina := min 100 (a.stamina + staminaRegen),
             health := min 100 (a.health + healthRegen) }
  else if isWorking then
    { a with stamina := max 0 (a.stamina - 15/100) }
  else
    { a with stamina := min 100 (a.stamina + 2/10) }

/-- game_loop.py 399-400: exhaustion damage when stamina < 10. -/
def stepExhaustion (a : NPCAttributes) : NPCAttributes :=
  if a.stamina < 10 then { a with health := max 0 (a.health - 2/100) } else a

/-- Attribute part of MainGameLoop.update_npc_attributes (game_loop.py
348-418), as the in-order composition of its four in-place mutations.
The position jitter and the death transition at the end of the source
function do not touch the three attributes. -/
def update_npc_attributes (weather : String) (currentAction : Option String)
    (inShelter : Bool) (healthRegenBonus staminaRegenBonus : ℚ)
    (a : NPCAttributes) : NPCAttributes :=
  stepExhaustion
    (stepStaminaHealth weather currentAction inShelter healthRegenBonus
      staminaRegenBonus (stepStarvation (stepHunger a)))

/-- Food effect table of MainGameLoop.complete_eat_action (game_loop.py
1302-1311): (hunger delta, health delta, stamina delta), default
(-20, 3, 3). -/
def foodEffects (item : String) : ℚ × ℚ × ℚ :=
  if item = "berry" then (-30, 5, 5)
  else if item = "water" then (-10, 2, 10)
  else if item = "raw_meat" then (-40, 3, 5)
  else if item = "cooked_meat" then (-60, 15, 10)
  else if item = "wood" then (0, 0, 0)
  else if item = "stone" then (0, 0, 0)
  else (-20, 3, 3)

/-- Attribute mutation of MainGameLoop.complete_eat_action (game_loop.py
1294-1320) when one unit of the food item is consumed: hunger floored at
0, health and stamina capped at 100. -/
def complete_eat_action (item : String) (a : NPCAttributes) : NPCAttributes :=
  let e := foodEffects item
  { health := min 100 (a.health + e.2.1),
    hunger := max 0 (a.hunger + e.1),
    stamina := min 100 (a.stamina + e.2.2) }

/-- Incoming beast damage, MainGameLoop._beast_attack_npc
(game_loop.py 2100): health floored at 0. -/
def beastHitAttrs (damage : ℚ) (a : NPCAttributes) : NPCAttributes :=
  { a with health := max 0 (a.health - damage) }

/-- Stamina cost of the auto-counterattack, MainGameLoop._beast_attack_npc
(game_loop.py 2124): stamina floored at 0. -/
def counterCostAttrs (a : NPCAttributes) : NPCAttributes :=
  { a with stamina := max 0 (a.stamina - 8) }

/-- One attribute-mutating operation of the tick loop. -/
inductive AttrOp where
  | tick (weather : String) (currentAction : Option String) (inShelter : Bool)
      (healthRegenBonus staminaRegenBonus : ℚ)
  | eat (item : String)
  | beastHit (damage : ℚ)
  | counterCost
deriving DecidableEq

/-- Apply one attribute-mutating operation. -/
def applyAttrOp (a : NPCAttributes) (op : AttrOp) : NPCAttributes :=
  match op with
  | .tick w c s hB sB => update_npc_attributes w c s hB sB a
  | .eat item => complete_eat_action item a
  | .beastHit d => beastHitAttrs d a
  | .counterCost => counterCostAttrs a

/-- Well-formed operation parameters as produced by the engine: the
shelter regeneration bonuses come from the BuildingType table (0.5 / 1.0,
never negative) and beast damage from the BeastType table (0 to 15, never
negative). -/
def WFAttrOp (op : AttrOp) : Prop :=
  match op with
  | .tick _ _ _ hB sB => 0 ≤ hB ∧ 0 ≤ sB
  | .beastHit d => 0 ≤ d
  | _ => True

instance : (op : AttrOp) → Decidable (WFAttrOp op)
  | .tick _ _ _ hB sB => inferInstanceAs (Decidable (0 ≤ hB ∧ 0 ≤ sB))
  | .eat _ => inferInstanceAs (Decidable True)
  | .beastHit d => inferInstanceAs (Decidable (0 ≤ d))
  | .counterCost => inferInstanceAs (Decidable True)

lemma weatherEffect_nonneg (w : String) :
    0 ≤ (weatherEffect w).1 ∧ 0 ≤ (weatherEffect w).2 := by
  unfold weatherEffect
  split
  · norm_num
  · split
    · norm_num
    · split <;> norm_num

lemma stepHunger_inRange {a : NPCAttributes} (h : AttrsInRange a) :
    AttrsInRange (stepHunger a) := by
  obtain ⟨h1, h2, h3, h4, h5, h6⟩ := h
  refine ⟨h1, h2, le_min (by norm_num) (by linarith), min_le_left _ _, h5, h6⟩

lemma stepStarvation_inRange {a : NPCAttributes} (h : AttrsInRange a) :
    AttrsInRange (stepStarvation a) := by
  obtain ⟨h1, h2, h3, h4, h5, h6⟩ := h
  unfold stepStarvation
  split
  · exact ⟨le_max_left _ _, max_le (by norm_num) (by linarith), h3, h4, h5, h6⟩
  · exact ⟨h1, h2, h3, h4, h5, h6⟩

lemma stepStaminaHealth_inRange (weather : String) (currentAction : Option String)
    (inShelter : Bool) {hB sB : ℚ} (hhB : 0 ≤ hB) (hsB : 0 ≤ sB)
    {a : NPCAttributes} (h : AttrsInRange a) :
    AttrsInRange (stepStaminaHealth weather currentAction inShelter hB sB a) := by
  obtain ⟨h1, h2, h3, h4, h5, h6⟩ := h
  obtain ⟨hw1, hw2⟩ := weatherEffect_nonneg weather
  unfold stepStaminaHealth
  simp only
  split
  · -- rest branch
    have hsX : (0:ℚ) ≤ 3/2 + (if inShelter = true then sB else 0) := by
      split <;> linarith
    have hhX : (0:ℚ) ≤ 4/5 + (if inShelter = true then hB else 0) := by
      split <;> linarith
    have hsr : 0 ≤ (if inShelter = true
        then 3/2 + (if inShelter = true then sB else 0)
        else (3/2 + (if inShelter = true then sB else 0)) * (weatherEffect weather).1) := by
      split
      · linarith
      · exact mul_nonneg (by norm_num) hw1
    have hhr : 0 ≤ (if inShelter = true
        then 4/5 + (if inShelter = true then hB else 0)
        else (4/5 + (if inShelter = true then hB else 0)) * (weatherEffect weather).2) := by
      split
      · linarith
      · exact mul_nonneg (by norm_num) hw2
    refine ⟨le_min (by norm_num) (by linarith), min_le_left _ _, h3, h4,
      le_min (by norm_num) (by linarith), min_le_left _ _⟩
  · split
    · -- working branch
      exact ⟨h1, h2, h3, h4, le_max_left _ _, max_le (by norm_num) (by linarith)⟩
    · -- idle branch
      exact ⟨h1, h2, h3, h4, le_min (by norm_num) (by linarith), min_le_left _ _⟩

lemma stepExhaustion_inRange {a : NPCAttributes} (h : AttrsInRange a) :
    AttrsInRange (stepExhaustion a) := by
  obtain ⟨h1, h2, h3, h4, h5, h6⟩ := h
  unfold stepExhaustion
  split
  · exact ⟨le_max_left _ _, max_le (by norm_num) (by linarith), h3, h4, h5, h6⟩
  · exact ⟨h1, h2, h3, h4, h5, h6⟩

lemma foodEffects_signs (item : String) :
    (foodEffects item).1 ≤ 0 ∧ 0 ≤ (foodEffects item).2.1 ∧
      0 ≤ (foodEffects item).2.2 := by
  unfold foodEffects
  split
  · norm_num
  · split
    · norm_num
    · split
      · norm_num
      · split
        · norm_num
        · split
          · norm_num
          · split <;> norm_num

lemma complete_eat_action_inRange (item : String) {a : NPCAttributes}
    (h : AttrsInRange a) : AttrsInRange (complete_eat_action item a) := by
  obtain ⟨h1, h2, h3, h4, h5, h6⟩ := h
  obtain ⟨e1, e2, e3⟩ := foodEffects_signs item
  unfold complete_eat_action
  refine ⟨le_min (by norm_num) (by linarith), min_le_left _ _,
    le_max_left _ _, max_le (by norm_num) (by linarith),
    le_min (by norm_num) (by linarith), min_le_left _ _⟩

lemma beastHitAttrs_inRange {d : ℚ} (hd : 0 ≤ d) {a : NPCAttributes}
    (h : AttrsInRange a) : AttrsInRange (beastHitAttrs d a) := by
  obtain ⟨h1, h2, h3, h4, h5, h6⟩ := h
  exact ⟨le_max_left _ _, max_le (by norm_num) (by linarith), h3, h4, h5, h6⟩

lemma counterCostAttrs_inRange {a : NPCAttributes} (h : AttrsInRange a) :
    AttrsInRange (counterCostAttrs a) := by
  obtain ⟨h1, h2, h3, h4, h5, h6⟩ := h
  exact ⟨h1, h2, h3, h4, le_max_left _ _, max_le (by norm_num) (by linarith)⟩

lemma applyAttrOp_inRange {op : AttrOp} (hop : WFAttrOp op)
    {a : NPCAttributes} (h : AttrsInRange a) : AttrsInRange (applyAttrOp a op) := by
  cases op with
  | tick w c s hB sB =>
      exact stepExhaustion_inRange
        (stepStaminaHealth_inRange w c s hop.1 hop.2
          (stepStarvation_inRange (stepHunger_inRange h)))
  | eat item => exact complete_eat_action_inRange item h
  | beastHit d => exact beastHitAttrs_inRange hop h
  | counterCost => exact counterCostAttrs_inRange h

/-- C1: For every agent and any finite number of ticks, health, hunger and
stamina each remain within [0,100] under every state-mutating operation
(per-tick decay/regeneration, resting, eating, combat damage from beasts,
counterattack stamina cost). -/
theorem c1_attributes_stay_in_range (a : NPCAttributes) (ops : List AttrOp)
    (h0 : AttrsInRange a) (hwf : ∀ op ∈ ops, WFAttrOp op) :
    AttrsInRange (ops.foldl applyAttrOp a) := by
  induction ops generalizing a with
  | nil => exact h0
  | cons op rest ih =>
      exact ih (applyAttrOp a op)
        (applyAttrOp_inRange (hwf op (List.mem_cons_self op rest)) h0)
        (fun o ho => hwf o (List.mem_cons_of_mem op ho))

/-- Witness for C1 at a concrete agent and a concrete operation sequence
covering every kind of mutation. -/
theorem c1_attributes_stay_in_range_witness :
    AttrsInRange ⟨100, 0, 100⟩ ∧
      AttrsInRange
        ([AttrOp.tick "storm" (some "gather") false 0 0,
          AttrOp.beastHit 15, AttrOp.counterCost,
          AttrOp.eat "berry",
          AttrOp.tick "clear" (some "rest") true 1 1].foldl
            applyAttrOp ⟨100, 0, 100⟩) := by
  exact ⟨by decide, c1_attributes_stay_in_range _ _ (by decide) (by decide)⟩

/-! ## C2: resource-node occupancy -/

/-- Python truthiness of an optional string. -/
def targetTruthy : Option String → Bool
  | none => false
  | some s => !(s == "")

/-- Resource node (models app.models.resources.ResourceNode); the
regeneration_rate and quality fields are not read by the verified code. -/
structure ResourceNode where
  id : String
  type : String
  position : Position2D
  quantity : ℤ
  max_quantity : ℤ
  is_depleted : Bool
  depleted_time : ℚ
  occupied_by : Option String
deriving DecidableEq

/-- ResourceNode.gather (resources.py 61-70): take min(amount, quantity),
decrement quantity, mark depleted when quantity reaches ≤ 0; returns the
actual amount together with the updated node. -/
def ResourceNode.gather (r : ResourceNode) (amount : ℤ) : ℤ × ResourceNode :=
  let actual := min amount r.quantity
  let q := r.quantity - actual
  (actual, { r with quantity := q,
                    is_depleted := if q ≤ 0 then true else r.is_depleted })

/-- Availability filter of the gather dispatch (game_loop.py 929-935):
matching type, not depleted, and unoccupied or occupied by the
dispatching agent itself. -/
def isAvailable (npcId targetType : String) (r : ResourceNode) : Bool :=
  r.type == targetType && !r.is_depleted &&
    (r.occupied_by == none || r.occupied_by == some npcId)

/-- One step of the nearest-resource scan (game_loop.py 937-944): keep the
strictly closer candidate, the earlier one on ties. -/
def pickNearer (pos : Position2D) (best : Option (ℕ × ResourceNode))
    (p : ℕ × ResourceNode) : Option (ℕ × ResourceNode) :=
  match best with
  | none => some p
  | some q =>
      if distSq pos p.2.position < distSq pos q.2.position then some p else some q

/-- The nearest-available-resource scan of the gather dispatch
(game_loop.py 926-944), returning the index and node of the nearest
available resource of the requested type. -/
def findNearestAvailable (npcId targetType : String) (pos : Position2D)
    (rs : List ResourceNode) : Option (ℕ × ResourceNode) :=
  (rs.enum.filter (fun p => isAvailable npcId targetType p.2)).foldl
    (pickNearer pos) none

/-- Occupancy acquisition of the gather dispatch (game_loop.py 946-948):
the nearest available node, if any, gets occupied_by := npc.id. -/
def execute_action_gather_acquire (npcId targetType : String) (pos : Position2D)
    (rs : List ResourceNode) : List ResourceNode :=
  match findNearestAvailable npcId targetType pos rs with
  | none => rs
  | some (j, r) => rs.set j { r with occupied_by := some npcId }

/-- MainGameLoop.release_resource_occupation (game_loop.py 339-346): when
the agent is mid-gather with a target, clear the occupancy of the node
matching that target, guarded by occupied_by == npc.id.  The source
clears the first match and breaks; mapping the same guarded clear over
the list coincides with it whenever node ids are distinct, and each
individual clear carries the same guard. -/
def release_resource_occupation (currentAction : Option String)
    (actionTarget : Option String) (npcId : String)
    (rs : List ResourceNode) : List ResourceNode :=
  if currentAction == some "gather" && targetTruthy actionTarget then
    rs.map (fun r =>
      if actionTarget == some r.id && r.occupied_by == some npcId then
        { r with occupied_by := none }
      else r)
  else rs

/-- Occupancy release at gather completion (game_loop.py 1280-1281): the
resolved target node is cleared, guarded by occupied_by == npc.id. -/
def complete_gather_release (npcId targetId : String)
    (rs : List ResourceNode) : List ResourceNode :=
  rs.map (fun r =>
    if r.id == targetId && r.occupied_by == some npcId then
      { r with occupied_by := none }
    else r)

/-- The occupancy-mutating operations of the engine.  dispatchGather is
the acquisition in MainGameLoop.execute_action; releaseOccupation is
MainGameLoop.release_resource_occupation, called on cooldown end
(game_loop.py 324) and on forced interruption (2180, 2215);
completeGatherRelease is the release inside complete_gather_action. -/
inductive OccOp where
  | dispatchGather (npcId targetType : String) (pos : Position2D)
  | releaseOccupation (currentAction actionTarget : Option String) (npcId : String)
  | completeGatherRelease (npcId targetId : String)
deriving DecidableEq

/-- Apply one occupancy-mutating operation to the resource list. -/
def applyOccOp (op : OccOp) (rs : List ResourceNode) : List ResourceNode :=
  match op with
  | .dispatchGather npcId ty pos => execute_action_gather_acquire npcId ty pos rs
  | .releaseOccupation ca tgt npcId => release_resource_occupation ca tgt npcId rs
  | .completeGatherRelease npcId tgt => complete_gather_release npcId tgt rs

lemma foldl_pickNearer_eq_some (pos : Position2D) :
    ∀ (l : List (ℕ × ResourceNode)) (best : Option (ℕ × ResourceNode))
      (p : ℕ × ResourceNode),
      l.foldl (pickNearer pos) best = some p → p ∈ l ∨ best = some p := by
  intro l
  induction l with
  | nil => exact fun best p h => Or.inr h
  | cons q rest ih =>
      intro best p h
      rcases ih (pickNearer pos best q) p h with hmem | hbest
      · exact Or.inl (List.mem_cons_of_mem q hmem)
      · unfold pickNearer at hbest
        cases best with
        | none =>
            left
            obtain rfl : q = p := by simpa using hbest
            exact List.mem_cons_self _ _
        | some q0 =>
            by_cases hlt : distSq pos q.2.position < distSq pos q0.2.position
            · left
              obtain rfl : q = p := by simpa [hlt] using hbest
              exact List.mem_cons_self _ _
            · right
              simpa [hlt] using hbest

lemma findNearestAvailable_spec {npcId targetType : String} {pos : Position2D}
    {rs : List ResourceNode} {j : ℕ} {r : ResourceNode}
    (h : findNearestAvailable npcId targetType pos rs = some (j, r)) :
    rs[j]? = some r ∧ isAvailable npcId targetType r = true := by
  unfold findNearestAvailable at h
  rcases foldl_pickNearer_eq_some pos _ none (j, r) h with hmem | hnone
  · obtain ⟨henum, hpred⟩ := List.mem_filter.mp hmem
    exact ⟨List.mem_enum_iff_getElem?.mp henum, hpred⟩
  · exact absurd hnone (by simp)

/-- A single guarded-clear map step never moves occupancy from one agent
to a different one. -/
lemma guarded_update_occ {f : ResourceNode → ResourceNode}
    (hf : ∀ r, (f r).occupied_by = r.occupied_by ∨ (f r).occupied_by = none)
    {rs : List ResourceNode} {k : ℕ} {r r' : ResourceNode} {a b : String}
    (h1 : rs[k]? = some r) (h2 : (rs.map f)[k]? = some r')
    (ha : r.occupied_by = some a) (hb : r'.occupied_by = some b) : a = b := by
  rw [List.getElem?_map, h1] at h2
  obtain rfl : f r = r' := by simpa using h2
  rcases hf r with hsame | hnone
  · rw [hsame, ha] at hb
    exact (Option.some.injEq _ _ ▸ hb :)
  · rw [hnone] at hb
    cases hb

/-- C2: a resource node's occupied_by only ever transitions from None (or
from the same agent) to an agent id, never directly from one agent to a
distinct other agent: the gather dispatch acquires a node only if it is
unoccupied or already occupied by the dispatching agent, and every
release site (gather completion, cancellation/interruption, cooldown end)
is guarded by occupied_by == npc.id and only clears to None. -/
theorem c2_occupancy_no_direct_handoff (op : OccOp) (rs : List ResourceNode)
    (k : ℕ) (r r' : ResourceNode) (a b : String)
    (h1 : rs[k]? = some r) (h2 : (applyOccOp op rs)[k]? = some r')
    (ha : r.occupied_by = some a) (hb : r'.occupied_by = some b) : a = b := by
  cases op with
  | dispatchGather npcId ty pos =>
      simp only [applyOccOp, execute_action_gather_acquire] at h2
      cases hfind : findNearestAvailable npcId ty pos rs with
      | none =>
          have h2' : rs[k]? = some r' := by rw [hfind] at h2; exact h2
          rw [h1] at h2'
          obtain rfl : r = r' := by simpa using h2'
          rw [ha] at hb
          exact Option.some.inj hb
      | some jt =>
          obtain ⟨j, t⟩ := jt
          obtain ⟨hget, havail⟩ := findNearestAvailable_spec hfind
          by_cases hkj : j = k
          · subst hkj
            rw [hget] at h1
            obtain rfl : r = t := by simpa using h1.symm
            have hlen : j < rs.length := by
              by_contra hge
              rw [List.getElem?_eq_none (Nat.le_of_not_lt hge)] at hget
              cases hget
            have h2' : (rs.set j { r with occupied_by := some npcId })[j]? = some r' := by
              rw [hfind] at h2; exact h2
            rw [List.getElem?_set_self hlen] at h2'
            obtain rfl : { r with occupied_by := some npcId } = r' := by
              simpa using h2'
            have hbval : npcId = b := by simpa using hb
            unfold isAvailable at havail
            simp only [Bool.and_eq_true, Bool.or_eq_true, beq_iff_eq] at havail
            rcases havail.2 with hnone | hself
            · rw [ha] at hnone; cases hnone
            · rw [ha] at hself
              have haval : a = npcId := Option.some.inj hself
              rw [haval, hbval]
          · have h2' : (rs.set j { t with occupied_by := some npcId })[k]? = some r' := by
              rw [hfind] at h2; exact h2
            rw [List.getElem?_set_ne hkj] at h2'
            rw [h1] at h2'
            obtain rfl : r = r' := by simpa using h2'
            rw [ha] at hb
            exact Option.some.inj hb
  | releaseOccupation ca tgt npcId =>
      simp only [applyOccOp, release_resource_occupation] at h2
      by_cases hcond : (ca == some "gather" && targetTruthy tgt) = true
      · rw [if_pos hcond] at h2
        refine guarded_update_occ ?_ h1 h2 ha hb
        intro s
        by_cases hc : (tgt == some s.id && s.occupied_by == some npcId) = true
        · right; simp [hc]
        · left; simp [hc]
      · rw [if_neg hcond, h1] at h2
        obtain rfl : r = r' := by simpa using h2
        rw [ha] at hb
        exact Option.some.inj hb
  | completeGatherRelease npcId tgt =>
      simp only [applyOccOp, complete_gather_release] at h2
      refine guarded_update_occ ?_ h1 h2 ha hb
      intro s
      by_cases hc : (s.id == tgt && s.occupied_by == some npcId) = true
      · right; simp [hc]
      · left; simp [hc]

/-- Sample node for the C2 witness: a wood node already occupied by the
dispatching agent. -/
def c2SampleNode : ResourceNode :=
  { id := "res1", type := "wood", position := { x := 10, y := 10 },
    quantity := 50, max_quantity := 100, is_depleted := false,
    depleted_time := 0, occupied_by := some "alice" }

/-- Witness for C2: a concrete dispatch over a node already occupied by
the same agent keeps the same occupant. -/
theorem c2_occupancy_no_direct_handoff_witness :
    ([c2SampleNode][0]? = some c2SampleNode ∧
      (applyOccOp (OccOp.dispatchGather "alice" "wood" { x := 0, y := 0 })
          [c2SampleNode])[0]? = some c2SampleNode ∧
      c2SampleNode.occupied_by = some "alice") ∧ "alice" = "alice" := by
  refine ⟨⟨by decide, by decide, by decide⟩, ?_⟩
  exact c2_occupancy_no_direct_handoff
    (OccOp.dispatchGather "alice" "wood" { x := 0, y := 0 })
    [c2SampleNode] 0 c2SampleNode c2SampleNode "alice" "alice"
    (by decide) (by decide) (by decide) (by decide)

/-! ## C3: depletion / regeneration timing -/

/-- Game clock (models app.models.world.TimeSystem). -/
structure TimeSystem where
  day : ℤ
  hour : ℤ
  minute : ℚ
deriving DecidableEq

/-- TimeSystem.get_current_time (world.py 27-29): the clock value is
day*24*60 + hour*60 + minute, i.e. one unit per minute of the displayed
world clock (one world-clock day = 1440 units). -/
def TimeSystem.get_current_time (t : TimeSystem) : ℚ :=
  t.day * 24 * 60 + t.hour * 60 + t.minute

/-- DAY_IN_SECONDS constant of MainGameLoop.process_resources
(game_loop.py 2296): 24*60*60 = 86400. -/
def DAY_IN_SECONDS : ℚ := 24 * 60 * 60

/-- regeneration_time table of MainGameLoop.process_resources
(game_loop.py 2297-2302, lookup with default 2*DAY_IN_SECONDS). -/
def regenerationTime (ty : String) : ℚ :=
  if ty = "wood" then 2 * DAY_IN_SECONDS
  else if ty = "stone" then 3 * DAY_IN_SECONDS
  else if ty = "berry" then 3/2 * DAY_IN_SECONDS
  else if ty = "water" then 1 * DAY_IN_SECONDS
  else 2 * DAY_IN_SECONDS

/-- Per-node body of MainGameLoop.process_resources (game_loop.py
2304-2326): a depleted node whose elapsed time since depletion reaches
the regeneration threshold is reset to max_quantity; every other node is
untouched (non-depleted nodes never passively regenerate). -/
def process_resources_node (current_time : ℚ) (r : ResourceNode) : ResourceNode :=
  if r.is_depleted then
    if current_time - r.depleted_time ≥ regenerationTime r.type then
      { r with quantity := r.max_quantity, is_depleted := false,
               depleted_time := 0 }
    else r
  else r

/-- MainGameLoop.process_resources over the resource list. -/
def process_resources (current_time : ℚ) (rs : List ResourceNode) :
    List ResourceNode :=
  rs.map (process_resources_node current_time)

/-- Wood node for C3, recorded as depleted at world-clock Day 1, 08:00
(get_current_time = 1920). -/
def c3WoodNode : ResourceNode :=
  { id := "res2", type := "wood", position := { x := 5, y := 5 },
    quantity := 0, max_quantity := 100, is_depleted := true,
    depleted_time := TimeSystem.get_current_time { day := 1, hour := 8, minute := 0 },
    occupied_by := none }

/-- C3 is violated by the code: the regeneration thresholds are computed
in simulated seconds (wood: 172800) but get_current_time counts one unit
per world-clock minute, so exactly 2 world-clock days (2880 units) after
a wood node's depletion the resource pass leaves it depleted and
unchanged; the code only resets it once 172800 units = 120 world-clock
days have elapsed.  This evaluates the code at that failing input. -/
theorem c3_regeneration_delay_units_mismatch :
    TimeSystem.get_current_time { day := 3, hour := 8, minute := 0 } -
        c3WoodNode.depleted_time = 2 * (24 * 60) ∧
    process_resources_node
        (TimeSystem.get_current_time { day := 3, hour := 8, minute := 0 })
        c3WoodNode = c3WoodNode ∧
    (process_resources_node
        (TimeSystem.get_current_time { day := 3, hour := 8, minute := 0 })
        c3WoodNode).is_depleted = true ∧
    (process_resources_node (c3WoodNode.depleted_time + 172800 - 1)
        c3WoodNode).is_depleted = true ∧
    (process_resources_node (c3WoodNode.depleted_time + 172800)
        c3WoodNode).is_depleted = false ∧
    (172800 : ℚ) = 120 * (24 * 60) := by
  refine ⟨?_, ?_, ?_, ?_, ?_, by norm_num⟩ <;>
    norm_num [process_resources_node, regenerationTime, DAY_IN_SECONDS,
      TimeSystem.get_current_time, c3WoodNode]

/-! ## C4: action duration clamping -/

/-- The inputs of MainGameLoop.calculate_action_duration: the agent's
skill dictionary (read with .get(name, 0), modelled as a total function)
and the stamina/health attributes. -/
structure DurationNPC where
  skills : String → ℚ
  stamina : ℚ
  health : ℚ

/-- base_times table of calculate_action_duration (game_loop.py 515-526,
lookup default 10.0); build is entered as 999999.0. -/
def base_times (action : String) : ℚ :=
  if action = "gather" then 12
  else if action = "flee" then 3
  else if action = "share" then 5
  else if action = "rest" then 25
  else if action = "eat" then 6
  else if action = "explore" then 18
  else if action = "build" then 999999
  else if action = "hunt" then 30
  else 10

/-- type_multipliers table (game_loop.py 538-544, default 1.0). -/
def type_multipliers (ty : String) : ℚ :=
  if ty = "wood" then 6/5
  else if ty = "stone" then 3/2
  else if ty = "berry" then 1/2
  else if ty = "water" then 3/5
  else 1

/-- relevant_skills table (game_loop.py 551-556). -/
def relevant_skills (action : String) : Option String :=
  if action = "gather" then some "gathering"
  else if action = "build" then some "construction"
  else if action = "hunt" then some "combat"
  else none

/-- calculate_action_duration before its final clamp (game_loop.py
512-568): base time, resource-type multiplier and remaining-fraction
factor for gather, skill discount, stamina and health penalties. -/
def calculate_action_duration_raw (npc : DurationNPC) (action : String)
    (target : Option String) (resources : List ResourceNode) : ℚ :=
  let duration := base_times action
  let duration :=
    if action = "gather" ∧ targetTruthy target then
      match resources.find? (fun r => some r.id == target) with
      | some resource =>
          let d := duration * type_multipliers resource.type
          let resource_factor := (resource.quantity : ℚ) / (resource.max_quantity : ℚ)
          d * (1/2 + 1/2 * resource_factor)
      | none => duration
    else duration
  let duration :=
    match relevant_skills action with
    | some skill_name =>
        let skill_level := npc.skills skill_name
        let skill_reduction := min (1/2) (skill_level * (5/1000))
        duration * (1 - skill_reduction)
    | none => duration
  let duration := if npc.stamina < 30 then duration * (13/10) else duration
  let duration := if npc.health < 50 then duration * (6/5) else duration
  duration

/-- MainGameLoop.calculate_action_duration (game_loop.py 512-570): the
computed duration followed by the unconditional final clamp
max(5.0, min(120.0, duration)). -/
def calculate_action_duration (npc : DurationNPC) (action : String)
    (target : Option String) (resources : List ResourceNode) : ℚ :=
  max 5 (min 120 (calculate_action_duration_raw npc action target resources))

/-- A fully healthy, unskilled agent for the C4 counterexample. -/
def c4Npc : DurationNPC :=
  { skills := fun _ => 0, stamina := 100, health := 100 }

/-- C4 as stated is false: the final [5,120] clamp in
calculate_action_duration is unconditional, so the build action is also
subject to the 120-second cap — its raw duration 999999 is clamped to
exactly 120 rather than being unbounded. -/
theorem c4_build_duration_is_capped_counterexample :
    calculate_action_duration c4Npc "build" none [] = 120 ∧
    calculate_action_duration_raw c4Npc "build" none [] = 999999 ∧
    calculate_action_duration_raw c4Npc "build" none [] >
      calculate_action_duration c4Npc "build" none [] := by
  have hraw : calculate_action_duration_raw c4Npc "build" none [] = 999999 := by
    simp [calculate_action_duration_raw, base_times, relevant_skills,
      targetTruthy, c4Npc]
    norm_num
  have hclamped : calculate_action_duration c4Npc "build" none [] = 120 := by
    rw [calculate_action_duration, hraw]
    norm_num
  exact ⟨hclamped, hraw, by rw [hraw, hclamped]; norm_num⟩

/-- C4 amended: for every NPC and every dispatched action — build
included — the computed action duration lies within [5,120] seconds; in
particular flee (base 3s) always yields at least 5s. -/
theorem c4_duration_always_clamped (npc : DurationNPC) (action : String)
    (target : Option String) (resources : List ResourceNode) :
    5 ≤ calculate_action_duration npc action target resources ∧
      calculate_action_duration npc action target resources ≤ 120 := by
  unfold calculate_action_duration
  constructor
  · exact le_max_left _ _
  · exact max_le (by norm_num) (min_le_left _ _)

/-! ## C5: gather yield -/

/-- gather_amounts table of complete_gather_action (game_loop.py
1229-1235, lookup default 5). -/
def gather_amounts (ty : String) : ℤ :=
  if ty = "wood" then 5
  else if ty = "stone" then 3
  else if ty = "berry" then 10
  else if ty = "water" then 15
  else 5

/-- Tool bonus chain of complete_gather_action (game_loop.py 1238-1249):
int(base * multiplier) with the matching tool equipped.  Python's int()
truncates toward zero; the operands here are nonnegative, so it is the
floor, and at this table's values the float products are exact
(7, 4, 13, 18). -/
def tool_adjusted_amount (ty : String) (equipment : List String) : ℤ :=
  let g := gather_amounts ty
  if ty = "wood" ∧ equipment.contains "stone_axe" then ⌊(g : ℚ) * (3/2)⌋
  else if ty = "stone" ∧ equipment.contains "stone_pickaxe" then ⌊(g : ℚ) * (3/2)⌋
  else if ty = "berry" ∧ equipment.contains "basket" then ⌊(g : ℚ) * (13/10)⌋
  else if ty = "water" ∧ equipment.contains "water_container" then ⌊(g : ℚ) * (6/5)⌋
  else g

/-- MainGameLoop.complete_gather_action (game_loop.py 1201-1292) on the
resolved target node: fail (None) when out of gather range
(PhysicsEngine.can_gather, distance ≤ 2.0) or when the node is already
depleted; otherwise gather the tool-adjusted amount through
ResourceNode.gather, stamp depleted_time when the node just became
depleted, and release the occupancy held by this agent.  Returns the
actual amount and the updated node; the agent-side inventory and skill
updates are not part of the node state. -/
def complete_gather_action_node (npcId : String) (pos : Position2D)
    (equipment : List String) (current_time : ℚ) (r : ResourceNode) :
    Option (ℤ × ResourceNode) :=
  if ¬ (distSq pos r.position ≤ 4) then none
  else if r.is_depleted then none
  else
    let gathered := r.gather (tool_adjusted_amount r.type equipment)
    let r1 := gathered.2
    let r2 := if r1.is_depleted then { r1 with depleted_time := current_time } else r1
    let r3 := if r2.occupied_by == some npcId then { r2 with occupied_by := none } else r2
    some (gathered.1, r3)

/-- C5: completing a gather on an in-range, non-depleted node yields the
per-type base amount (wood 5, stone 3, berry 10, water 15) multiplied by
the matching tool bonus when equipped (axe/pickaxe +50%, basket +30%,
water-container +20%), capped to the node's remaining quantity; the
node's quantity decreases by exactly the actual yield and is_depleted
becomes true exactly when the quantity reaches 0. -/
theorem c5_gather_yield_and_depletion (npcId : String) (pos : Position2D)
    (equipment : List String) (t : ℚ) (r : ResourceNode)
    (hrange : distSq pos r.position ≤ 4) (hdep : r.is_depleted = false)
    (hq : 0 < r.quantity) :
    (∀ actual r3,
        complete_gather_action_node npcId pos equipment t r = some (actual, r3) →
        actual = min (tool_adjusted_amount r.type equipment) r.quantity ∧
        r3.quantity = r.quantity - actual ∧
        (r3.is_depleted = true ↔ r3.quantity = 0)) ∧
    (complete_gather_action_node npcId pos equipment t r).isSome = true ∧
    gather_amounts "wood" = 5 ∧ gather_amounts "stone" = 3 ∧
    gather_amounts "berry" = 10 ∧ gather_amounts "water" = 15 ∧
    tool_adjusted_amount "wood" ["stone_axe"] = 7 ∧
    tool_adjusted_amount "stone" ["stone_pickaxe"] = 4 ∧
    tool_adjusted_amount "berry" ["basket"] = 13 ∧
    tool_adjusted_amount "water" ["water_container"] = 18 := by
  have hnotr : ¬¬ (distSq pos r.position ≤ 4) := not_not_intro hrange
  refine ⟨?_, ?_, by decide, by decide, by decide, by decide,
    by simp [tool_adjusted_amount, gather_amounts]; norm_num,
    by simp [tool_adjusted_amount, gather_amounts]; norm_num,
    by simp [tool_adjusted_amount, gather_amounts]; norm_num,
    by simp [tool_adjusted_amount, gather_amounts]; norm_num⟩
  · intro actual r3 hsome
    rw [complete_gather_action_node, if_neg hnotr, if_neg (by simp [hdep])] at hsome
    simp only [ResourceNode.gather] at hsome
    set A := tool_adjusted_amount r.type equipment with hA
    have hminle : min A r.quantity ≤ r.quantity := min_le_right _ _
    have hq0 : 0 ≤ r.quantity - min A r.quantity := by linarith
    set q1 := r.quantity - min A r.quantity with hq1
    obtain ⟨ha, hr3⟩ := Prod.mk.injEq _ _ _ _ ▸ Option.some.inj hsome
    refine ⟨ha.symm, ?_, ?_⟩
    · rw [← hr3, ← ha]
      simp only [apply_ite ResourceNode.quantity, ite_self]
    · have hd3 : r3.is_depleted = (if q1 ≤ 0 then true else r.is_depleted) := by
        rw [← hr3]
        simp only [apply_ite ResourceNode.is_depleted, ite_self]
      have hq3 : r3.quantity = q1 := by
        rw [← hr3]
        simp only [apply_ite ResourceNode.quantity, ite_self]
      rw [hd3, hq3, hdep]
      split
      · have hz : q1 = 0 := by omega
        simp [hz]
      · simp only [Bool.false_eq_true, false_iff]
        omega
  · rw [complete_gather_action_node, if_neg hnotr, if_neg (by simp [hdep])]
    rfl

/-- Node for the C5 witness scenario: wood, quantity 3, no tool bonus. -/
def c5Node : ResourceNode :=
  { id := "res3", type := "wood", position := { x := 1, y := 1 },
    quantity := 3, max_quantity := 100, is_depleted := false,
    depleted_time := 0, occupied_by := some "bob" }

/-- Witness for C5 at the spec's scenario: quantity 3, request 5 (wood,
no tool) gives actual 3, quantity 0, is_depleted true. -/
theorem c5_gather_yield_and_depletion_witness :
    (distSq { x := 1, y := 1 } c5Node.position ≤ 4 ∧
      c5Node.is_depleted = false ∧ 0 < c5Node.quantity) ∧
    (∀ actual r3,
        complete_gather_action_node "bob" { x := 1, y := 1 } [] 7 c5Node =
            some (actual, r3) →
        actual = min (tool_adjusted_amount c5Node.type []) c5Node.quantity ∧
        r3.quantity = c5Node.quantity - actual ∧
        (r3.is_depleted = true ↔ r3.quantity = 0)) ∧
    complete_gather_action_node "bob" { x := 1, y := 1 } [] 7 c5Node =
      some (3, { c5Node with quantity := 0, is_depleted := true,
                             depleted_time := 7, occupied_by := none }) := by
  have h1 : distSq { x := 1, y := 1 } c5Node.position ≤ 4 := by
    norm_num [distSq, c5Node]
  refine ⟨⟨h1, by decide, by decide⟩,
    (c5_gather_yield_and_depletion "bob" { x := 1, y := 1 } [] 7 c5Node h1
      (by decide) (by decide)).1, ?_⟩
  rw [complete_gather_action_node, if_neg (not_not_intro h1)]
  norm_num [ResourceNode.gather, tool_adjusted_amount, gather_amounts, c5Node]

/-! ## C6: cooperative construction progress -/

/-- The NPC fields read by MainGameLoop.process_buildings. -/
structure BuilderNPC where
  id : String
  position : Position2D
  current_action : Option String
  action_target : Option String
  is_alive : Bool
deriving DecidableEq

/-- The building fields read and written by MainGameLoop.process_buildings
(models app.models.buildings.Building2D). -/
structure Building2D where
  id : String
  position : Position2D
  is_complete : Bool
  construction_progress : ℚ
  build_time_total : ℚ
  build_time_elapsed : ℚ
  builders : List String
  requires_cooperation : Bool
deriving DecidableEq

/-- Active-builder test of process_buildings (game_loop.py 2341-2351):
current action build, target this building, alive, within 5 units. -/
def is_active_builder (b : Building2D) (n : BuilderNPC) : Bool :=
  n.current_action == some "build" && n.action_target == some b.id &&
    n.is_alive && decide (distSq n.position b.position < 25)

/-- Building-state part of MainGameLoop.process_buildings (game_loop.py
2328-2417) for one building and one tick (delta_time = 1): recompute the
active-builder set fresh, refresh the builders field, and when at least
one builder is active add (Δt/buildTimeTotal)×(1+0.5×(n−1)) to the
progress, saturating at 1.0 and completing at 1.0.  The NPC-side rewards
on completion (skill gain, memory, cooling) do not touch building state;
requires_cooperation is only read for a log line. -/
def process_building (npcs : List BuilderNPC) (b : Building2D) : Building2D :=
  if b.is_complete then b
  else
    let active_builders := npcs.filter (is_active_builder b)
    let b1 := { b with builders := active_builders.map (fun n => n.id) }
    if active_builders.isEmpty then b1
    else
      let base_progress_rate := 1 / b.build_time_total
      let cooperation_bonus := 1 + ((active_builders.length : ℚ) - 1) * (1/2)
      let progress_delta := base_progress_rate * cooperation_bonus
      let progress := min 1 (b.construction_progress + progress_delta)
      { b1 with build_time_elapsed := b.build_time_elapsed + 1,
                construction_progress := progress,
                is_complete := decide (progress ≥ 1) }

/-- C6: each tick an incomplete building with n ≥ 1 active builders
(living agents building that target within 5 units, recomputed fresh)
advances by (Δt/buildTimeTotal)×(1+0.5×(n−1)), saturating at 1.0; with
exactly one active builder the bonus is 1.0 — also when
requires_cooperation is true, which the progress computation never
reads. -/
theorem c6_construction_progress (npcs : List BuilderNPC) (b : Building2D)
    (n : ℕ) (hc : b.is_complete = false)
    (hn : (npcs.filter (is_active_builder b)).length = n) (h1 : 1 ≤ n) :
    (process_building npcs b).construction_progress =
      min 1 (b.construction_progress +
        1 / b.build_time_total * (1 + ((n : ℚ) - 1) * (1/2))) ∧
    (process_building npcs b).builders =
      (npcs.filter (is_active_builder b)).map (fun x => x.id) ∧
    (n = 1 → (process_building npcs b).construction_progress =
      min 1 (b.construction_progress + 1 / b.build_time_total)) := by
  have hne : (npcs.filter (is_active_builder b)).isEmpty = false := by
    rcases hl : npcs.filter (is_active_builder b) with _ | ⟨x, xs⟩
    · rw [hl] at hn
      simp at hn
      omega
    · rfl
  have hpb : process_building npcs b =
      { b with builders := (npcs.filter (is_active_builder b)).map (fun x => x.id),
               build_time_elapsed := b.build_time_elapsed + 1,
               construction_progress := min 1 (b.construction_progress +
                 1 / b.build_time_total *
                   (1 + (((npcs.filter (is_active_builder b)).length : ℚ) - 1) * (1/2))),
               is_complete := decide ((min 1 (b.construction_progress +
                 1 / b.build_time_total *
                   (1 + (((npcs.filter (is_active_builder b)).length : ℚ) - 1) * (1/2)))) ≥ 1) } := by
    rw [process_building, if_neg (by simp [hc]), if_neg (by simp [hne])]
  refine ⟨?_, ?_, ?_⟩
  · rw [hpb, hn]
  · rw [hpb]
  · intro hone
    rw [hpb, hn, hone]
    norm_num

/-- Incomplete building for the C6 witness: requires_cooperation true,
build time 60, one active builder. -/
def c6Building : Building2D :=
  { id := "bldg1", position := { x := 0, y := 0 }, is_complete := false,
    construction_progress := 0, build_time_total := 60,
    build_time_elapsed := 0, builders := [], requires_cooperation := true }

/-- Single active builder for the C6 witness, 1 unit from the site. -/
def c6Builder : BuilderNPC :=
  { id := "carol", position := { x := 1, y := 0 },
    current_action := some "build", action_target := some "bldg1",
    is_alive := true }

/-- Witness for C6: one active builder on a requires_cooperation building
advances it at the base rate with bonus 1.0. -/
theorem c6_construction_progress_witness :
    (c6Building.is_complete = false ∧
      ([c6Builder].filter (is_active_builder c6Building)).length = 1 ∧
      (1 : ℕ) ≤ 1) ∧
    ((process_building [c6Builder] c6Building).construction_progress =
      min 1 (c6Building.construction_progress +
        1 / c6Building.build_time_total * (1 + ((1 : ℚ) - 1) * (1/2))) ∧
    (process_building [c6Builder] c6Building).builders =
      ([c6Builder].filter (is_active_builder c6Building)).map (fun x => x.id) ∧
    (1 = 1 → (process_building [c6Builder] c6Building).construction_progress =
      min 1 (c6Building.construction_progress +
        1 / c6Building.build_time_total))) := by
  have hn : ([c6Builder].filter (is_active_builder c6Building)).length = 1 := by
    norm_num [List.filter, is_active_builder, c6Building, c6Builder, distSq]
  exact ⟨⟨by decide, hn, le_refl 1⟩,
    c6_construction_progress [c6Builder] c6Building 1 (by decide) hn (le_refl 1)⟩

/-! ## C7: witness-memory and interrupt fan-out on a beast attack -/

/-- The fields of an onlooking NPC read and written by the fan-out loop
of MainGameLoop._beast_attack_npc (game_loop.py 2195-2228).  stone_count
models inventory.get("stone", 0); the last_action_result status string
written in both branches is presentation-only and not modelled. -/
structure WitnessNPC where
  id : String
  position : Position2D
  is_alive : Bool
  health : ℚ
  bravery : ℤ
  equipment : List String
  stone_count : ℤ
  memories : List String
  current_action : Option String
  action_target : Option String
  action_state : String
  action_end_time : Option ℚ
deriving DecidableEq

/-- Memory trimming used throughout game_loop.py: when the log exceeds 30
entries keep the last 20. -/
def trimMemories (ms : List String) : List String :=
  if ms.length > 30 then ms.drop (ms.length - 20) else ms

/-- The witness memory string of game_loop.py 2202. -/
def witness_memory_text (victimName beastType : String) : String :=
  "看到" ++ victimName ++ "被" ++ beastType ++ "攻击，需要帮助！"

/-- Armed test of the fan-out loop (game_loop.py 2210): spear equipped or
holding at least one stone. -/
def npc_has_weapon (n : WitnessNPC) : Bool :=
  n.equipment.contains "spear" || decide (n.stone_count > 0)

/-- One onlooker's update in the fan-out loop of _beast_attack_npc
(game_loop.py 2196-2228): every other living agent within 15 units gets
the witness memory appended (then trimmed); those with health > 50, a
weapon, and bravery > 30 additionally release their resource occupancy
and are forced to idle (action cleared, end time cleared). -/
def beast_attack_witness_update (victimId victimName : String)
    (victimPos : Position2D) (beastType : String) (o : WitnessNPC)
    (rs : List ResourceNode) : WitnessNPC × List ResourceNode :=
  if o.id ≠ victimId ∧ o.is_alive then
    if distSq o.position victimPos < 225 then
      let m1 := trimMemories (o.memories ++ [witness_memory_text victimName beastType])
      let o1 := { o with memories := m1 }
      let can_help := decide (o1.health > 50) && npc_has_weapon o1
      if can_help && decide (o1.bravery > 30) then
        let rs1 := release_resource_occupation o1.current_action o1.action_target o1.id rs
        ({ o1 with current_action := none, action_target := none,
                   action_state := "idle", action_end_time := none }, rs1)
      else (o1, rs)
    else (o, rs)
  else (o, rs)

/-- C7 amended: on a beast attack, the witness memory is appended to
every other living agent within 15 units — armed or not, whatever their
health or bravery — while the forced idle-interrupt (plus occupancy
release) goes exactly to the subset with health > 50, a weapon, and
bravery > 30; agents not alive or beyond 15 units are untouched. -/
theorem c7_witness_fanout (victimId victimName : String)
    (victimPos : Position2D) (beastType : String) (o : WitnessNPC)
    (rs : List ResourceNode) :
    (¬ (o.id ≠ victimId ∧ o.is_alive = true ∧
        distSq o.position victimPos < 225) →
      beast_attack_witness_update victimId victimName victimPos beastType o rs =
        (o, rs)) ∧
    ((o.id ≠ victimId ∧ o.is_alive = true ∧ distSq o.position victimPos < 225) →
      (beast_attack_witness_update victimId victimName victimPos beastType o rs).1.memories =
        trimMemories (o.memories ++ [witness_memory_text victimName beastType])) ∧
    ((o.id ≠ victimId ∧ o.is_alive = true ∧ distSq o.position victimPos < 225) →
      o.health > 50 → npc_has_weapon o = true → o.bravery > 30 →
      (beast_attack_witness_update victimId victimName victimPos beastType o rs).1.action_state = "idle" ∧
      (beast_attack_witness_update victimId victimName victimPos beastType o rs).1.current_action = none ∧
      (beast_attack_witness_update victimId victimName victimPos beastType o rs).1.action_target = none ∧
      (beast_attack_witness_update victimId victimName victimPos beastType o rs).1.action_end_time = none ∧
      (beast_attack_witness_update victimId victimName victimPos beastType o rs).2 =
        release_resource_occupation o.current_action o.action_target o.id rs) ∧
    ((o.id ≠ victimId ∧ o.is_alive = true ∧ distSq o.position victimPos < 225) →
      ¬ (o.health > 50 ∧ npc_has_weapon o = true ∧ o.bravery > 30) →
      (beast_attack_witness_update victimId victimName victimPos beastType o rs).1.action_state = o.action_state ∧
      (beast_attack_witness_update victimId victimName victimPos beastType o rs).1.current_action = o.current_action ∧
      (beast_attack_witness_update victimId victimName victimPos beastType o rs).1.action_end_time = o.action_end_time ∧
      (beast_attack_witness_update victimId victimName victimPos beastType o rs).2 = rs) := by
  have hform : beast_attack_witness_update victimId victimName victimPos beastType o rs =
      (if o.id ≠ victimId ∧ o.is_alive then
        if distSq o.position victimPos < 225 then
          if decide (o.health > 50) && npc_has_weapon o && decide (o.bravery > 30) then
            (let m1 := trimMemories (o.memories ++ [witness_memory_text victimName beastType])
             ({ o with memories := m1, current_action := none, action_target := none,
                       action_state := "idle", action_end_time := none },
              release_resource_occupation o.current_action o.action_target o.id rs))
          else
            (let m1 := trimMemories (o.memories ++ [witness_memory_text victimName beastType])
             ({ o with memories := m1 }, rs))
        else (o, rs)
      else (o, rs)) := rfl
  refine ⟨?_, ?_, ?_, ?_⟩
  · intro hno
    rw [hform]
    split_ifs with hA hC hW
    · exact absurd ⟨hA.1, hA.2, hC⟩ hno
    · exact absurd ⟨hA.1, hA.2, hC⟩ hno
    · rfl
    · rfl
  · rintro ⟨hA, hB, hC⟩
    rw [hform, if_pos ⟨hA, hB⟩, if_pos hC]
    split <;> rfl
  · rintro ⟨hA, hB, hC⟩ hh hw hbv
    have hcond : (decide (o.health > 50) && npc_has_weapon o &&
        decide (o.bravery > 30)) = true := by
      simp only [Bool.and_eq_true, decide_eq_true_eq]
      exact ⟨⟨hh, hw⟩, hbv⟩
    rw [hform, if_pos ⟨hA, hB⟩, if_pos hC, if_pos hcond]
    exact ⟨rfl, rfl, rfl, rfl, rfl⟩
  · rintro ⟨hA, hB, hC⟩ hnot
    have hcond : ¬ ((decide (o.health > 50) && npc_has_weapon o &&
        decide (o.bravery > 30)) = true) := by
      simp only [Bool.and_eq_true, decide_eq_true_eq]
      rintro ⟨⟨hh, hw⟩, hbv⟩
      exact hnot ⟨hh, hw, hbv⟩
    rw [hform, if_pos ⟨hA, hB⟩, if_pos hC, if_neg hcond]
    exact ⟨rfl, rfl, rfl, rfl⟩

/-- Unarmed, healthy, brave onlooker 5 units from the victim, mid-gather,
for the C7 counterexample. -/
def c7Bystander : WitnessNPC :=
  { id := "dave", position := { x := 55, y := 50 }, is_alive := true,
    health := 100, bravery := 100, equipment := [], stone_count := 0,
    memories := [], current_action := some "gather",
    action_target := some "res9", action_state := "executing",
    action_end_time := some 99 }

/-- C7 as stated is false: an unarmed living agent within 15 units is
outside the armed∧healthy∧brave set, so per the claim it should receive
neither the witness memory nor the interrupt — but the code appends the
witness memory to it (while indeed not interrupting it). -/
theorem c7_memory_goes_to_unarmed_counterexample :
    npc_has_weapon c7Bystander = false ∧
    distSq c7Bystander.position { x := 50, y := 50 } < 225 ∧
    (beast_attack_witness_update "victim1" "Ann" { x := 50, y := 50 } "wolf"
        c7Bystander []).1.memories = [witness_memory_text "Ann" "wolf"] ∧
    (beast_attack_witness_update "victim1" "Ann" { x := 50, y := 50 } "wolf"
        c7Bystander []).1.memories ≠ c7Bystander.memories ∧
    (beast_attack_witness_update "victim1" "Ann" { x := 50, y := 50 } "wolf"
        c7Bystander []).1.action_state = c7Bystander.action_state := by
  have hC : distSq c7Bystander.position { x := 50, y := 50 } < 225 := by
    norm_num [distSq, c7Bystander]
  have heval : beast_attack_witness_update "victim1" "Ann" { x := 50, y := 50 }
      "wolf" c7Bystander [] =
      ({ c7Bystander with memories := [witness_memory_text "Ann" "wolf"] }, []) := by
    rw [beast_attack_witness_update, if_pos ⟨by decide, by decide⟩, if_pos hC,
      if_neg (by decide)]
    rfl
  rw [heval]
  exact ⟨by decide, hC, rfl, by decide, rfl⟩

/-! ## C8: smart escape direction -/

/-- Beast (models app.models.beasts.Beast; the fields the escape
computation reads). -/
structure Beast where
  id : String
  type : String
  position : Position2D
  aggression : ℚ
deriving DecidableEq

/-- Beast.is_aggressive (beasts.py 84-86): aggression > 0.5. -/
def Beast.is_aggressive (b : Beast) : Bool :=
  decide (b.aggression > 1/2)

/-- The escape computation runs on Python floats through math.sqrt,
math.atan2, math.radians, math.cos and math.sin; these transcendental
primitives are abstracted as oracle functions over ℚ. -/
structure MathOracle where
  sqrtQ : ℚ → ℚ
  atan2Q : ℚ → ℚ → ℚ
  radiansQ : ℚ → ℚ
  cosQ : ℚ → ℚ
  sinQ : ℚ → ℚ

/-- One collected threat of _calculate_smart_escape_direction
(game_loop.py 1877-1894). -/
structure ThreatInfo where
  beast : Beast
  dx : ℚ
  dy : ℚ
  dist : ℚ
deriving DecidableEq

/-- The escape target returned by _calculate_smart_escape_direction. -/
structure EscapeResult where
  target_x : ℚ
  target_y : ℚ
deriving DecidableEq

/-- MainGameLoop._calculate_smart_escape_direction (game_loop.py
1865-2054).  rx/ry stand for the random.uniform(-10,10) draws of the
no-threat branch.  The building-attractor loop at line 1936-1937 reads
building.is_completed, an attribute that does not exist on Building2D
(the model defines is_complete, buildings.py 107), so in Python the
first loop iteration raises AttributeError whenever any building exists;
this is modelled as Except.error.  With no buildings the loop body never
runs and the computation proceeds (building bonus 0). -/
def _calculate_smart_escape_direction (M : MathOracle) (rx ry : ℚ)
    (npc : WitnessNPC) (beasts : List Beast) (buildings : List Building2D)
    (npcs : List WitnessNPC) : Except String EscapeResult :=
  let threats : List ThreatInfo := beasts.filterMap (fun b =>
    if b.is_aggressive then
      let dx := b.position.x - npc.position.x
      let dy := b.position.y - npc.position.y
      let dist := M.sqrtQ (dx^2 + dy^2)
      if dist < 40 ∧ dist > 0 then some ⟨b, dx, dy, dist⟩ else none
    else none)
  if threats.isEmpty then
    .ok { target_x := npc.position.x + rx, target_y := npc.position.y + ry }
  else
    let dvx := threats.foldl (fun acc t => acc + t.dx / t.dist * (1 / t.dist)) 0
    let dvy := threats.foldl (fun acc t => acc + t.dy / t.dist * (1 / t.dist)) 0
    let total := threats.foldl (fun acc t => acc + 1 / t.dist) 0
    let dvx := if total > 0 then dvx / total else dvx
    let dvy := if total > 0 then dvy / total else dvy
    let sx := -dvx
    let sy := -dvy
    let smag := M.sqrtQ (sx^2 + sy^2)
    let sx := if smag > 0 then sx / smag else sx
    let sy := if smag > 0 then sy / smag else sy
    match buildings with
    | _ :: _ =>
        .error "AttributeError: Building2D object has no attribute is_completed"
    | [] =>
      let ab := npcs.foldl (fun (acc : ℚ × ℚ) other =>
        if other.id = npc.id ∨ other.is_alive = false then acc
        else
          let adx := other.position.x - npc.position.x
          let ady := other.position.y - npc.position.y
          let adist := M.sqrtQ (adx^2 + ady^2)
          if adist > 0 ∧ adist < 25 then
            if other.equipment.contains "spear" ∧ other.health > 50 then
              let bonus := (2/10) / adist
              (acc.1 + adx / adist * bonus, acc.2 + ady / adist * bonus)
            else acc
          else acc) (0, 0)
      let bpx : ℚ := if npc.position.x < 15 then 3/10
        else if npc.position.x > 85 then -(3/10) else 0
      let bpy : ℚ := if npc.position.y < 15 then 3/10
        else if npc.position.y > 85 then -(3/10) else 0
      let fdx := sx * 1 + 0 * (1/2) + ab.1 * (3/10) + bpx * (8/10)
      let fdy := sy * 1 + 0 * (1/2) + ab.2 * (3/10) + bpy * (8/10)
      let fmag := M.sqrtQ (fdx^2 + fdy^2)
      let fdx := if fmag > 0 then fdx / fmag else fdx
      let fdy := if fmag > 0 then fdy / fmag else fdy
      let base_angle := M.atan2Q fdy fdx
      let threat_at := fun (p : ℚ × ℚ) =>
        threats.foldl (fun acc t =>
          let ddx := t.beast.position.x - p.1
          let ddy := t.beast.position.y - p.2
          let dd := M.sqrtQ (ddx^2 + ddy^2)
          if dd < 20 then acc + 10 / (dd + 1/10) else acc) 0
      let best := [(-30 : ℚ), -15, 0, 15, 30].foldl
        (fun (acc : ℚ × ℚ × Option ℚ) offset =>
          let ar := base_angle + M.radiansQ offset
          let tx := max 10 (min 90 (npc.position.x + M.cosQ ar * 15))
          let ty := max 10 (min 90 (npc.position.y + M.sinQ ar * 15))
          let t := threat_at (tx, ty)
          match acc.2.2 with
          | none => (tx, ty, some t)
          | some tb => if t < tb then (tx, ty, some t) else acc)
        (npc.position.x + fdx * 15, npc.position.y + fdy * 15, none)
      .ok { target_x := best.1, target_y := best.2.1 }

/-- Oracle instantiation for concrete evaluation (its values are
irrelevant on the error path). -/
def idOracle : MathOracle :=
  { sqrtQ := fun q => q, atan2Q := fun _ _ => 0, radiansQ := fun _ => 0,
    cosQ := fun _ => 0, sinQ := fun _ => 0 }

/-- Fleeing agent at (50,50) for the C8 failing input. -/
def c8Npc : WitnessNPC :=
  { id := "erin", position := { x := 50, y := 50 }, is_alive := true,
    health := 80, bravery := 50, equipment := [], stone_count := 0,
    memories := [], current_action := some "flee", action_target := none,
    action_state := "executing", action_end_time := some 10 }

/-- Aggressive wolf 5 units away for the C8 failing input. -/
def c8Wolf : Beast :=
  { id := "wolf1", type := "wolf", position := { x := 55, y := 50 },
    aggression := 7/10 }

/-- Completed campfire present in the world for the C8 failing input. -/
def c8Building : Building2D :=
  { id := "bldg2", position := { x := 40, y := 40 }, is_complete := true,
    construction_progress := 1, build_time_total := 60,
    build_time_elapsed := 60, builders := [], requires_cooperation := false }

/-- C8 is violated by the code: with an aggressive beast within 40 units
and any building in the world, the escape computation reads
building.is_completed — a field Building2D does not define (it defines
is_complete) — and raises AttributeError instead of completing and
returning the weighted escape target.  This evaluates the code at that
failing input. -/
theorem c8_escape_errors_when_building_exists :
    _calculate_smart_escape_direction idOracle 0 0 c8Npc [c8Wolf]
        [c8Building] [] =
      Except.error
        "AttributeError: Building2D object has no attribute is_completed" ∧
    c8Wolf.is_aggressive = true ∧
    distSq c8Npc.position c8Wolf.position = 25 := by
  have hd : idOracle.sqrtQ ((c8Wolf.position.x - c8Npc.position.x)^2 +
      (c8Wolf.position.y - c8Npc.position.y)^2) = 25 := by
    norm_num [idOracle, c8Wolf, c8Npc]
  refine ⟨?_, by norm_num [Beast.is_aggressive, c8Wolf], by norm_num [distSq, c8Wolf, c8Npc]⟩
  have hthreats : [c8Wolf].filterMap (fun b =>
      if b.is_aggressive then
        let dx := b.position.x - c8Npc.position.x
        let dy := b.position.y - c8Npc.position.y
        let dist := idOracle.sqrtQ (dx^2 + dy^2)
        if dist < 40 ∧ dist > 0 then some (⟨b, dx, dy, dist⟩ : ThreatInfo) else none
      else none) =
      [⟨c8Wolf, 5, 0, 25⟩] := by
    simp only [List.filterMap]
    norm_num [Beast.is_aggressive, idOracle, c8Wolf, c8Npc]
  simp only [_calculate_smart_escape_direction, hthreats]
  rfl

/-! ## C9: death-handling idempotence -/

/-- The NPC fields read and written by MainGameLoop._handle_npc_death. -/
structure DeathNPC where
  id : String
  name : String
  position : Position2D
  is_alive : Bool
  action_state : String
  current_action : Option String
  is_moving : Bool
  move_target : Option Position2D
  memories : List String
deriving DecidableEq

/-- The world slice _handle_npc_death touches: the dying agent, the other
agents, and the world event log (descriptions). -/
structure DeathWorld where
  victim : DeathNPC
  others : List DeathNPC
  events : List String
deriving DecidableEq

/-- The witness-of-death memory string of game_loop.py 447. -/
def death_memory_text (victimName : String) : String :=
  "目睹了" ++ victimName ++ "的死亡，感到悲伤和恐惧"

/-- The death event description of game_loop.py 433. -/
def death_event_text (victimName : String) : String :=
  "💀 " ++ victimName ++ " 死亡了！"

/-- WorldState2D.add_event (world.py 100-105): append, keep last 100. -/
def add_event (events : List String) (e : String) : List String :=
  let es := events ++ [e]
  if es.length > 100 then es.drop (es.length - 100) else es

/-- MainGameLoop._handle_npc_death (game_loop.py 420-451): guarded by
npc.is_alive, it marks the agent dead, records the death event, and
gives every other living agent within 20 units a witness memory
(appended then trimmed).  On an already-dead agent nothing runs. -/
def _handle_npc_death (w : DeathWorld) : DeathWorld :=
  if w.victim.is_alive then
    let v := { w.victim with is_alive := false, action_state := "dead",
                             current_action := none, is_moving := false,
                             move_target := none }
    let events := add_event w.events (death_event_text w.victim.name)
    let others := w.others.map (fun o =>
      if o.id ≠ w.victim.id ∧ o.is_alive ∧
          distSq o.position w.victim.position < 400 then
        { o with memories :=
            trimMemories (o.memories ++ [death_memory_text w.victim.name]) }
      else o)
    { victim := v, others := others, events := events }
  else w

/-- C9: invoking the NPC death handler on an agent whose is_alive flag is
already false is a no-op: no agent or world state changes, no additional
death event, no additional witness memory. -/
theorem c9_death_handler_idempotent (w : DeathWorld)
    (h : w.victim.is_alive = false) : _handle_npc_death w = w := by
  rw [_handle_npc_death, if_neg (by simp [h])]

/-- Already-dead world for the C9 witness: a nearby living onlooker and a
nonempty event log that must stay exactly as they are. -/
def c9World : DeathWorld :=
  { victim := { id := "frank", name := "Frank", position := { x := 10, y := 10 },
                is_alive := false, action_state := "dead",
                current_action := none, is_moving := false,
                move_target := none, memories := [] },
    others := [{ id := "gina", name := "Gina", position := { x := 12, y := 10 },
                 is_alive := true, action_state := "idle",
                 current_action := none, is_moving := false,
                 move_target := none, memories := ["m1"] }],
    events := ["e1"] }

/-- Witness for C9 at a concrete already-dead agent. -/
theorem c9_death_handler_idempotent_witness :
    c9World.victim.is_alive = false ∧ _handle_npc_death c9World = c9World :=
  ⟨by decide, c9_death_handler_idempotent c9World (by decide)⟩

/-! ## C10: auto-counterattack precondition -/

/-- The NPC fields read and written by the counterattack block of
MainGameLoop._beast_attack_npc (game_loop.py 2097-2128); stone_count
models inventory.get("stone", 0) and combat_skill models
skills.get("combat", 0). -/
structure CombatNPC where
  id : String
  is_alive : Bool
  health : ℚ
  stamina : ℚ
  bravery : ℤ
  equipment : List String
  stone_count : ℤ
  combat_skill : ℚ
deriving DecidableEq

/-- Armed test of the counterattack block (game_loop.py 2109). -/
def combat_has_weapon (n : CombatNPC) : Bool :=
  n.equipment.contains "spear" || decide (n.stone_count > 0)

/-- Damage plus auto-counterattack decision of _beast_attack_npc
(game_loop.py 2097-2128): the victim takes max(0, health−damage); the
counter fires only when the victim is still flagged alive with
post-damage health > 20, is armed, is brave (>40) or still healthy
(>60), and has stamina > 20; a successful counter costs 8 stamina and
grants one combat-skill point.  Returns (updated victim, counter fired,
counter damage dealt). -/
def beast_attack_counter (beastDamage : ℚ) (npc : CombatNPC) :
    CombatNPC × Bool × ℚ :=
  let npc1 := { npc with health := max 0 (npc.health - beastDamage) }
  if npc1.is_alive ∧ npc1.health > 20 then
    let has_weapon := combat_has_weapon npc1
    let brave_enough := decide (npc1.bravery > 40)
    let healthy_enough := decide (npc1.health > 60)
    let has_stamina := decide (npc1.stamina > 20)
    if has_weapon && (brave_enough || healthy_enough) && has_stamina then
      let counter_damage := 10 + npc1.combat_skill * (1/2) +
        (if npc1.equipment.contains "spear" then 15
         else if npc1.stone_count > 0 then 5 else 0)
      ({ npc1 with stamina := max 0 (npc1.stamina - 8),
                   combat_skill := min 100 (npc1.combat_skill + 1) },
       true, counter_damage)
    else (npc1, false, 0)
  else (npc1, false, 0)

/-- C10: an agent struck by a beast auto-counters exactly when, after the
damage, it is still alive with health strictly above 20 — on top of
being armed, brave (>40) or still healthy (>60), and having stamina
above 20; in particular a victim left at health ≤ 20 never counters. -/
theorem c10_counterattack_requires_health_above_20 (d : ℚ) (npc : CombatNPC) :
    ((beast_attack_counter d npc).2.1 = true ↔
      (npc.is_alive = true ∧ max 0 (npc.health - d) > 20 ∧
        combat_has_weapon npc = true ∧
        (npc.bravery > 40 ∨ max 0 (npc.health - d) > 60) ∧
        npc.stamina > 20)) ∧
    (max 0 (npc.health - d) ≤ 20 → (beast_attack_counter d npc).2.1 = false) := by
  have hform : beast_attack_counter d npc =
      (if npc.is_alive = true ∧ max 0 (npc.health - d) > 20 then
        if combat_has_weapon npc &&
            (decide (npc.bravery > 40) || decide (max 0 (npc.health - d) > 60)) &&
            decide (npc.stamina > 20) then
          ({ npc with health := max 0 (npc.health - d),
                      stamina := max 0 (npc.stamina - 8),
                      combat_skill := min 100 (npc.combat_skill + 1) },
           true,
           10 + npc.combat_skill * (1/2) +
             (if npc.equipment.contains "spear" then 15
              else if npc.stone_count > 0 then 5 else 0))
        else ({ npc with health := max 0 (npc.health - d) }, false, 0)
      else ({ npc with health := max 0 (npc.health - d) }, false, 0)) := rfl
  constructor
  · rw [hform]
    by_cases h1 : npc.is_alive = true ∧ max 0 (npc.health - d) > 20
    · rw [if_pos h1]
      by_cases h2 : (combat_has_weapon npc &&
          (decide (npc.bravery > 40) || decide (max 0 (npc.health - d) > 60)) &&
          decide (npc.stamina > 20)) = true
      · rw [if_pos h2]
        simp only [Bool.and_eq_true, Bool.or_eq_true, decide_eq_true_eq] at h2
        exact iff_of_true rfl ⟨h1.1, h1.2, h2.1.1, h2.1.2, h2.2⟩
      · rw [if_neg h2]
        apply iff_of_false
        · exact fun h => Bool.false_ne_true h
        · rintro ⟨_, _, hw, hor, hst⟩
          apply h2
          simp only [Bool.and_eq_true, Bool.or_eq_true, decide_eq_true_eq]
          exact ⟨⟨hw, hor⟩, hst⟩
    · rw [if_neg h1]
      apply iff_of_false
      · exact fun h => Bool.false_ne_true h
      · rintro ⟨hal, hh, _⟩
        exact h1 ⟨hal, hh⟩
  · intro hle
    rw [hform, if_neg (fun hcon => absurd hcon.2 (not_lt.mpr hle))]

end AiGame
